import Mathlib

/-!
Shallow embedding of the gymify_mvp ingestion/validation/feature-engineering
pipeline (src/database/data_validation.py, src/services/transform_input_to_dwh.py,
src/services/etl_input_to_dwh.py), together with proofs checking the
natural-language specification against it.

Numeric columns are modelled as `ℚ` (floats) and `ℤ` (int columns); nullable
cells as `Option`; a pandas DataFrame as a `List` of row structures; a raised
Python exception as `Except.error`.
-/

namespace Gymify

/-! ### Rounding

`Series.round(1)` in numpy/pandas rounds half to even (banker's rounding). -/

/-- Round a rational to the nearest integer, ties to the even integer, as
numpy rounding does. -/
def roundHalfEven (x : ℚ) : ℤ :=
  let f := Rat.floor x
  if x - f < 1/2 then f
  else if 1/2 < x - f then f + 1
  else if f % 2 = 0 then f else f + 1

/-- Round to one decimal place, modelling `.round(1)`. -/
def round1 (x : ℚ) : ℚ := (roundHalfEven (x * 10) : ℚ) / 10

/-! ### Derived metrics (services/transform_input_to_dwh.py,
services/etl_input_to_dwh.py)

`add_1rm_columns` (transform lines 51-65, etl lines 107-119) computes the
`reps_potential` and `1rm` columns row by row; both files contain the same
formulas. -/

/-- Column `reps_potential = df.repreal + df.rir.replace(-1,0).fillna(0)`
(transform_input_to_dwh.py line 57): the value −1 is replaced by 0, a null
is filled with 0, every other value of `rir` is added unchanged. -/
def reps_potential (repreal : ℤ) (rir : Option ℤ) : ℤ :=
  repreal +
    (match rir with
     | none => 0
     | some v => if v = -1 then 0 else v)

/-- Column `1rm` (transform_input_to_dwh.py lines 59-63):
`np.where((real_weight < 50) | (reps_potential <= 0), nan,
  np.where(repreal <= 8, real_weight / (1.0278 - 0.0278*reps_potential), nan))`
followed by `.round(1)`; `nan` is modelled as `none`. -/
def col_1rm (real_weight : ℚ) (repreal reps_potential : ℤ) : Option ℚ :=
  if real_weight < 50 ∨ reps_potential ≤ 0 then none
  else if repreal ≤ 8 then
    some (round1 (real_weight / (1.0278 - 0.0278 * (reps_potential : ℚ))))
  else none

/-- Column `effective_set = np.where(df.rir <= 4, 1, 0)`
(transform_input_to_dwh.py line 48). -/
def effective_set (rir : ℤ) : ℤ := if rir ≤ 4 then 1 else 0

/-- Spec-side definition of `estimated_1rm`, following the words of spec §4.3
step 5: null unless `true_lifted_weight ≥ 50` and `reps_potential > 0` and
`reps ≤ 8`; otherwise the Brzycki formula rounded to one decimal. -/
def estimated_1rm_spec (true_lifted_weight : ℚ) (reps reps_potential : ℤ) : Option ℚ :=
  if 50 ≤ true_lifted_weight ∧ 0 < reps_potential ∧ reps ≤ 8 then
    some (round1 (true_lifted_weight / (1.0278 - 0.0278 * (reps_potential : ℚ))))
  else none

/-! ### Muscle analytics (transform lines 200-212, etl lines 236-248) -/

/-- Column `sets_by_muscle` (transform_input_to_dwh.py lines 205-207):
`np.where(rol_multiplier == 1, 1, np.where(rol_multiplier == 0.1, 0, 0.5))`.
A null multiplier (the NaN produced by the left join for an unmapped
exercise) compares unequal to both constants, as NaN does in numpy, and so
falls through to the 0.5 branch. -/
def sets_by_muscle (rol_multiplier : Option ℚ) : ℚ :=
  if rol_multiplier = some 1 then 1
  else if rol_multiplier = some 0.1 then 0
  else 0.5

/-- Column `is_set_principal_for_muscle = np.where(sets_by_muscle == 1, 1, 0)`
(transform_input_to_dwh.py line 208). -/
def is_set_principal_for_muscle (sets : ℚ) : ℤ := if sets = 1 then 1 else 0

/-- Column `workload_by_muscle = workload * rol_multiplier`
(transform_input_to_dwh.py line 204); null multiplier yields NaN. -/
def workload_by_muscle (workload : ℚ) (rol_multiplier : Option ℚ) : Option ℚ :=
  rol_multiplier.map (fun m => workload * m)

/-! ### Python string primitives used by data_validation.py -/

/-- Python `str.lower()` (ASCII letters; the technique names only use ASCII
cased characters plus `ú`, which is uncased by `Char.toLower` as well). -/
def pyLower (s : String) : String := String.mk (s.data.map Char.toLower)

/-- Python `str.capitalize()`: first character uppercased, the rest
lowercased. -/
def pyCapitalize (s : String) : String :=
  match s.data with
  | [] => ""
  | c :: rest => String.mk (c.toUpper :: rest.map Char.toLower)

/-- Worker for `pyTitle`: uppercase every alphabetic character that follows a
non-alphabetic one (the flag carries whether the previous character was
alphabetic). -/
def pyTitleAux : Bool → List Char → List Char
  | _, [] => []
  | prevAlpha, c :: rest =>
    (if c.isAlpha && !prevAlpha then c.toUpper else c) :: pyTitleAux c.isAlpha rest

/-- Python `str.title()` as applied in `clean_rango` to an already lowercased
string: the first letter of every alphabetic run is uppercased. -/
def pyTitle (s : String) : String := String.mk (pyTitleAux false s.data)

/-- Python `str.strip()` on a character list: leading and trailing
whitespace removed. -/
def pyStrip (cs : List Char) : List Char :=
  ((cs.dropWhile Char.isWhitespace).reverse.dropWhile Char.isWhitespace).reverse

/-- Numeric value of a list of decimal digit characters. -/
def digitsVal (ds : List Char) : ℕ :=
  ds.foldl (fun n c => 10 * n + (c.toNat - 48)) 0

/-- Helper for `pyIntOfString`: one or more decimal digits. -/
def intDigitsCore (cs : List Char) : Option ℤ :=
  if cs ≠ [] ∧ cs.all Char.isDigit then some (digitsVal cs : ℤ) else none

/-- Python `int(s)` on a string: whitespace stripped, then an optional sign
followed by one or more decimal digits; anything else raises `ValueError`,
modelled as `none`. (Underscore digit separators are not modelled.) -/
def pyIntOfString (s : String) : Option ℤ :=
  match pyStrip s.data with
  | '-' :: rest => (intDigitsCore rest).map (fun n => -n)
  | '+' :: rest => intDigitsCore rest
  | cs => intDigitsCore cs

/-- Mantissa of a Python float literal: `digits`, `digits.`, `digits.digits`
or `.digits`. -/
def isFloatMantissa (l : List Char) : Bool :=
  let intPart := l.takeWhile Char.isDigit
  match l.dropWhile Char.isDigit with
  | [] => !intPart.isEmpty
  | '.' :: fr => fr.all Char.isDigit && (!intPart.isEmpty || !fr.isEmpty)
  | _ => false

/-- Optional leading sign of a numeric literal. -/
def dropSign : List Char → List Char
  | '+' :: r => r
  | '-' :: r => r
  | r => r

/-- Python `float(s)` acceptance on already-stripped characters: optional
sign, a mantissa, an optional exponent, or the special names
inf/infinity/nan (case-insensitive). -/
def isPyFloat (cs0 : List Char) : Bool :=
  let cs := dropSign cs0
  let lowered := cs.map Char.toLower
  if lowered = ['i', 'n', 'f'] || lowered = ['i', 'n', 'f', 'i', 'n', 'i', 't', 'y']
      || lowered = ['n', 'a', 'n'] then true
  else
    let mant := cs.takeWhile (fun c => c ≠ 'e' && c ≠ 'E')
    match cs.dropWhile (fun c => c ≠ 'e' && c ≠ 'E') with
    | [] => isFloatMantissa mant
    | _ :: expo =>
      let expo := dropSign expo
      isFloatMantissa mant && !expo.isEmpty && expo.all Char.isDigit

/-! ### Number extraction and formatting (data_validation.py `clean_rango`) -/

/-- Scanner for the regex `\d+(?:\.\d+)?` of `re.findall` in `clean_rango`:
walks the characters, reads every maximal digit run with an optional
fractional part, and returns the numbers found, in order. The first argument
is fuel; `extractNums` supplies enough for the whole string. -/
def scanNums : ℕ → List Char → List ℚ
  | 0, _ => []
  | _, [] => []
  | fuel + 1, c :: rest =>
    if c.isDigit then
      let intDs := c :: rest.takeWhile Char.isDigit
      let rest1 := rest.dropWhile Char.isDigit
      match rest1 with
      | '.' :: r2 =>
        let fracDs := r2.takeWhile Char.isDigit
        if fracDs.isEmpty then
          (digitsVal intDs : ℚ) :: scanNums fuel rest1
        else
          ((digitsVal intDs : ℚ) + (digitsVal fracDs : ℚ) / (10 : ℚ) ^ fracDs.length)
            :: scanNums fuel (r2.dropWhile Char.isDigit)
      | _ => (digitsVal intDs : ℚ) :: scanNums fuel rest1
    else scanNums fuel rest

/-- All numeric substrings of `cs` matching `\d+(?:\.\d+)?`, as rationals
(`re.findall` in `clean_rango`, followed by `float`). -/
def extractNums (cs : List Char) : List ℚ := scanNums cs.length cs

/-- Fractional digits of `r / d` (for `0 ≤ r < d`), stopping at remainder 0,
so no trailing zeros are produced. The first argument is fuel. -/
def fracDigits : ℕ → ℕ → ℕ → List Char
  | 0, _, _ => []
  | _, 0, _ => []
  | fuel + 1, r, d => Char.ofNat (48 + r * 10 / d) :: fracDigits fuel (r * 10 % d) d

/-- Compact decimal rendering of a nonnegative rational with a finite decimal
expansion: the form Python's `format(x, 'g')` produces for the values
`clean_rango` extracts (no trailing zeros, integer values without a point).
The scientific-notation regime of `%g` (six significant digits) is not
reached by rep-range inputs and is not modelled. -/
def fmtG (q : ℚ) : String :=
  let n := q.num.toNat
  let d := q.den
  let fds := fracDigits 30 (n % d) d
  if fds.isEmpty then toString (n / d)
  else toString (n / d) ++ "." ++ String.mk fds

/-! ### Range/Technique Normalizer (database/data_validation.py lines 7-51) -/

/-- The five recognized hypertrophy techniques (data_validation.py line 7). -/
def eh_techniques : List String :=
  ["Myo-reps", "Parciales", "Dropset", "Rest-pause", "Clúster"]

/-- Function `clean_rango` (data_validation.py lines 9-33). The input is a
string, so the `pd.isna` branch does not arise. Two extracted numbers are
sorted ascending (`sorted(map(float, nums))`) and formatted
`"{a:g} - {b:g}"`; a single float literal is returned unchanged; anything
else is lowercased and title-cased. -/
def clean_rango (value : String) : String :=
  let val := pyStrip value.data
  match extractNums val with
  | [x, y] =>
    if x ≤ y then fmtG x ++ " - " ++ fmtG y
    else fmtG y ++ " - " ++ fmtG x
  | _ =>
    if isPyFloat val then String.mk val
    else pyTitle (pyLower (String.mk val))

/-- Function `is_valid_rango` (data_validation.py lines 35-51): empty is
valid; any string containing a digit is valid; otherwise the string must
capitalize into one of the five techniques. -/
def is_valid_rango (val : String) : Bool :=
  if val = "" then true
  else
    let valStr := pyStrip val.data
    if valStr.any Char.isDigit then true
    else eh_techniques.contains (pyCapitalize (pyLower (String.mk valStr)))

/-! ### Field Validator (database/data_validation.py lines 53-169) -/

/-- One row of the data-editor batch handed to `validate_current_routine`:
columns Ejercicio, Rango, Reps, Peso, RIR. The RIR cell arrives as text
("F", "0", ... as entered). -/
structure RawRow where
  ejercicio : String
  rango : String
  reps : ℚ
  peso : ℚ
  rir : String
deriving DecidableEq

/-- Python exceptions `validate_current_routine` can raise. -/
inductive PyError where
  | valueError
  | zeroDivisionError
deriving DecidableEq

/-- Equality of validator results is decidable, so concrete runs can be
checked by evaluation. -/
instance instDecidableEqExceptPy {ε α : Type} [DecidableEq ε] [DecidableEq α] :
    DecidableEq (Except ε α) := fun a b =>
  match a, b with
  | .ok x, .ok y =>
    match decEq x y with
    | isTrue h => isTrue (by rw [h])
    | isFalse h => isFalse (by intro hc; cases hc; exact h rfl)
  | .error x, .error y =>
    match decEq x y with
    | isTrue h => isTrue (by rw [h])
    | isFalse h => isFalse (by intro hc; cases hc; exact h rfl)
  | .ok _, .error _ => isFalse (by intro hc; cases hc)
  | .error _, .ok _ => isFalse (by intro hc; cases hc)

/-- Which confirmations the validator leaves pending for the operator: one
flag per rule category, `true` when the corresponding `st.session_state`
confirmation is NOT set automatically (i.e. the warning branch fired). -/
structure ValidationFlags where
  requires_rango_fix : Bool
  requires_rir_fix : Bool
  requires_empty_confirmation : Bool
  requires_peso_confirmation : Bool
  requires_reps_confirmation : Bool
  requires_combo_confirmation : Bool
deriving DecidableEq

/-- RIR coercion of data_validation.py line 101:
`lambda x: str(int(x)) if x != "F" or "f" else x`. By Python operator
precedence this reads `(x != "F") or "f"`, which is truthy for every `x`
(for `x == "F"` the right operand `"f"` is returned, a truthy string), so
`str(int(x))` is applied to every value and a non-integer string such as
"F" raises `ValueError`. -/
def coerce_rir (x : String) : Except PyError String :=
  match pyIntOfString x with
  | some n => .ok (toString n)
  | none => .error .valueError

/-- The accepted RIR values of data_validation.py line 100 (the integer
members of the Python set coincide with their string forms after
`astype(str)`). -/
def valid_rirs : List String := ["f", "F", "0", "1", "2", "3", "4", "5"]

/-- Elementwise effectful `Series.apply`: the first exception raised while
mapping `f` over the rows propagates, as in pandas. -/
def mapExcept {ε α β : Type} (f : α → Except ε β) : List α → Except ε (List β)
  | [] => .ok []
  | x :: xs =>
    match f x with
    | .error e => .error e
    | .ok y => (mapExcept f xs).map (fun l => y :: l)

/-- Function `validate_current_routine` (data_validation.py lines 53-169),
up to the point where the confirmation checklist is known. Steps, in source
order: drop rows whose Reps+Peso sum is 0 (line 70); clean the Rango column
and flag invalid ranges (lines 92-98); coerce the RIR column, which can
raise `ValueError` (line 101); flag invalid RIR rows (lines 102-107);
compute the empty-set ratio, which divides by `len(df)` and raises
`ZeroDivisionError` on an empty frame (lines 110-116); flag heavy weights
(≥300), high reps (≥50) and ghost reps/weight combinations
(lines 119-143). -/
def validate_current_routine (rows : List RawRow) : Except PyError ValidationFlags :=
  let df := rows.filter (fun r => decide (r.reps + r.peso ≠ 0))
  let df := df.map (fun r => { r with rango := clean_rango r.rango })
  let requiresRango := !df.all (fun r => is_valid_rango r.rango)
  match mapExcept (fun r => (coerce_rir r.rir).map (fun v => { r with rir := v })) df with
  | .error e => .error e
  | .ok df =>
    let requiresRir :=
      df.any (fun r => decide (r.reps + r.peso ≠ 0) && !valid_rirs.contains r.rir)
    if df.length = 0 then .error .zeroDivisionError
    else
      let emptyRatio : ℚ :=
        ((df.filter (fun r => decide (r.reps + r.peso = 0))).length : ℚ) / (df.length : ℚ)
      let requiresEmpty := decide (emptyRatio > 1/2)
      let requiresPeso := df.any (fun r => decide (r.peso ≥ 300))
      let requiresReps := df.any (fun r => decide (r.reps ≥ 50))
      let requiresCombo :=
        df.any (fun r =>
          decide ((r.reps = 0 ∧ r.peso ≠ 0) ∨ (r.reps ≠ 0 ∧ r.peso = 0)))
      .ok ⟨requiresRango, requiresRir, requiresEmpty, requiresPeso,
           requiresReps, requiresCombo⟩

/-! ### Calendar dates and ISO year-week

`add_training_days_on_week_col` in etl_input_to_dwh.py keys its group-by on
`fecha.dt.strftime('%G-W%V')`, the ISO 8601 year and week; we compute that
pair from a proleptic Gregorian date. -/

/-- A civil date (year ≥ 1). -/
structure Date where
  year : ℕ
  month : ℕ
  day : ℕ
deriving DecidableEq

/-- Gregorian leap-year test. -/
def isLeap (y : ℕ) : Bool := (y % 4 = 0 && y % 100 ≠ 0) || y % 400 = 0

/-- Days in the months before month `m` of year `y`. -/
def daysBeforeMonth (y m : ℕ) : ℕ :=
  ([31, if isLeap y then 29 else 28, 31, 30, 31, 30, 31, 31, 30, 31, 30, 31].take
    (m - 1)).sum

/-- Ordinal day of the year (1 for January 1st). -/
def ordinalDay (d : Date) : ℕ := daysBeforeMonth d.year d.month + d.day

/-- Rata-die day number: 0001-01-01 (a Monday) is day 1. -/
def rataDie (d : Date) : ℕ :=
  365 * (d.year - 1) + (d.year - 1) / 4 - (d.year - 1) / 100 + (d.year - 1) / 400
    + ordinalDay d

/-- ISO weekday: Monday = 1 … Sunday = 7. -/
def isoWeekday (d : Date) : ℕ := (rataDie d - 1) % 7 + 1

/-- Number of ISO weeks in year `y` (52 or 53). -/
def isoWeeksInYear (y : ℕ) : ℕ :=
  let p : ℕ → ℕ := fun yr => (yr + yr / 4 - yr / 100 + yr / 400) % 7
  if p y = 4 || p (y - 1) = 3 then 53 else 52

/-- ISO 8601 (year, week) of a date: the key `strftime('%G-W%V')` groups by. -/
def isoYearWeek (d : Date) : ℕ × ℕ :=
  let w := (ordinalDay d + 10 - isoWeekday d) / 7
  if w = 0 then (d.year - 1, isoWeeksInYear (d.year - 1))
  else if w = 53 && isoWeeksInYear d.year = 52 then (d.year + 1, 1)
  else (d.year, w)

/-! ### Enriched-set rows (services/transform_input_to_dwh.py,
services/etl_input_to_dwh.py) -/

/-- A row of the enriched dataframe at the feature-engineering stage, with
the columns the claims under study read (`rm` is the `1rm` column; `none`
models NaN). -/
structure SetRow where
  fecha : Date
  exercise : String
  repreal : ℤ
  weight : ℚ
  rir : ℤ
  workload : ℚ
  real_weight : ℚ
  rm : Option ℚ
deriving DecidableEq

/-- Function `add_ismaxrm_column` (transform_input_to_dwh.py lines 67-70):
despite the comment "Identify the rows with the max 1RM", the body assigns
the constant 0 to `is_maxrm` for every row. -/
def add_ismaxrm_column (rows : List SetRow) : List (SetRow × ℤ) :=
  rows.map (fun r => (r, 0))

/-- Per-exercise maximum of the non-null `1rm` values of the current batch
(etl_input_to_dwh.py line 122: `df.loc[df['1rm'].notnull()].groupby('exercise')
['1rm'].max()`). -/
def max_rm_exercise (rows : List SetRow) (ex : String) : Option ℚ :=
  ((rows.filter (fun r => decide (r.exercise = ex))).filterMap (fun r => r.rm)).max?

/-- Column `is_maxrm` of etl_input_to_dwh.py lines 121-128: a row gets 1 when
its (exercise, 1rm) pair matches the per-exercise batch maximum of non-null
`1rm` values (the merge on `['exercise','1rm']`), else 0; the maximum is
taken over the current batch only. -/
def etl_is_maxrm (rows : List SetRow) (r : SetRow) : ℤ :=
  if r.rm ≠ none ∧ r.rm = max_rm_exercise rows r.exercise then 1 else 0

/-- Function `add_training_days_on_week_col` (transform_input_to_dwh.py
lines 175-181): despite the docstring "Create a column with the number of
training days on the week of each training date", the body assigns the
constant 0 to every row. -/
def add_training_days_on_week_col (rows : List SetRow) : List (SetRow × ℕ) :=
  rows.map (fun r => (r, 0))

/-- Column `training_days_on_week` of etl_input_to_dwh.py lines 207-217:
the number of distinct `fecha` values among the rows of the current batch
sharing the row's `%G-W%V` ISO year-week key. -/
def etl_training_days_on_week (rows : List SetRow) (r : SetRow) : ℕ :=
  (((rows.filter (fun x => decide (isoYearWeek x.fecha = isoYearWeek r.fecha))).map
    (fun x => x.fecha)).dedup).length

/-- Spec-side definition following spec §4.3 step 8: the count of distinct
training dates sharing the ISO (year, week) of `d`, computed over the full
historical collection of training dates. -/
def spec_training_days (history : List Date) (d : Date) : ℕ :=
  ((history.filter (fun x => decide (isoYearWeek x = isoYearWeek d))).dedup).length

/-! ### Muscle Attribution Fan-Out (transform_input_to_dwh.py
lines 183-212) -/

/-- A row of the static exercise→muscle role mapping
(`muscle_roles` columns used by `merge_muscleroles_and_inputdf`). -/
structure MuscleRole where
  muscle_name : String
  rol : String
  english_name : String
  rol_multiplier : Option ℚ
deriving DecidableEq

/-- Function `merge_muscleroles_and_inputdf` (transform_input_to_dwh.py
lines 183-198): a left merge of the input rows with the role mapping on
`exercise = english_name.str.capitalize()`. A set row with no matching
mapping entry is kept as a single output row whose role columns are all
null; a set row with k matches fans out into k rows. -/
def merge_muscleroles_and_inputdf (rows : List SetRow) (roles : List MuscleRole) :
    List (SetRow × Option MuscleRole) :=
  rows.flatMap (fun r =>
    match roles.filter (fun m => decide (pyCapitalize m.english_name = r.exercise)) with
    | [] => [(r, none)]
    | ms => ms.map (fun m => (r, some m)))

/-! ## Theorems

Batteries marks the rational-number operations `@[irreducible]`; proofs that
evaluate the embedded functions on concrete inputs restore the default
reducibility locally so that `decide` can reduce them. -/

attribute [local semireducible] Rat.add Rat.sub Rat.mul Rat.inv Rat.ofScientific

/-- C1: for every validated set, `estimated_1rm` (the `1rm` column) is null
unless `true_lifted_weight ≥ 50` and `reps_potential > 0` and `reps ≤ 8`;
when all three conditions hold it equals the Brzycki estimate rounded to one
decimal; in particular it is null whenever `reps > 8`, regardless of weight
and RIR. -/
theorem c1_estimated_1rm_matches_spec :
    (∀ (w : ℚ) (r p : ℤ), col_1rm w r p = estimated_1rm_spec w r p) ∧
    (∀ (w : ℚ) (r p : ℤ), 8 < r → col_1rm w r p = none) := by
  constructor
  · intro w r p
    unfold col_1rm estimated_1rm_spec
    by_cases h1 : w < 50 ∨ p ≤ 0
    · have hC : ¬(50 ≤ w ∧ 0 < p ∧ r ≤ 8) := by
        rintro ⟨hw, hp, -⟩
        rcases h1 with h | h
        · exact absurd hw (not_le.mpr h)
        · exact absurd hp (not_lt.mpr h)
      rw [if_pos h1, if_neg hC]
    · have hw : 50 ≤ w := not_lt.mp (fun h => h1 (Or.inl h))
      have hp : 0 < p := not_le.mp (fun h => h1 (Or.inr h))
      rw [if_neg h1]
      by_cases h2 : r ≤ 8
      · rw [if_pos h2, if_pos ⟨hw, hp, h2⟩]
      · rw [if_neg h2, if_neg (fun hC => h2 hC.2.2)]
  · intro w r p hr
    unfold col_1rm
    by_cases h1 : w < 50 ∨ p ≤ 0
    · rw [if_pos h1]
    · rw [if_neg h1, if_neg (by omega)]

/-- Witness for C1 at a concrete input: nine reps suppress the estimate. -/
theorem c1_witness : col_1rm 100 9 7 = none :=
  c1_estimated_1rm_matches_spec.2 100 9 7 (by norm_num)

/-- C7 counterexample: the claim `reps_potential = reps + max(RIR_numeric, 0)`
fails at RIR = −2, because the code only replaces the value −1 by 0 and adds
any other negative RIR as-is: `reps_potential 5 (some (-2)) = 3`, not 5. -/
theorem c7_counterexample : reps_potential 5 (some (-2)) ≠ 5 + max (-2 : ℤ) 0 := by
  decide

/-- C7 (amended): `reps_potential = reps + RIR_numeric` where only the exact
placeholder −1 (and a null) contributes 0; for `RIR ≥ 0` this agrees with
`reps + max(RIR, 0)`, but any other negative RIR value is added as-is. -/
theorem c7_reps_potential_floors_only_minus_one :
    ∀ (r w : ℤ),
      reps_potential r none = r ∧
      reps_potential r (some (-1)) = r ∧
      (w ≠ -1 → reps_potential r (some w) = r + w) ∧
      (0 ≤ w → reps_potential r (some w) = r + max w 0) := by
  intro r w
  refine ⟨by simp [reps_potential], by simp [reps_potential], ?_, ?_⟩
  · intro hw
    simp [reps_potential, hw]
  · intro hw
    by_cases h : w = -1
    · rw [h] at hw
      exact absurd hw (by norm_num)
    · simp [reps_potential, h, max_eq_left hw]

/-- Witness for C7's amended statement at RIR = 2. -/
theorem c7_witness :
    reps_potential 5 (some 2) = 5 + 2 ∧ reps_potential 5 (some 2) = 5 + max 2 0 :=
  ⟨(c7_reps_potential_floors_only_minus_one 5 2).2.2.1 (by decide),
   (c7_reps_potential_floors_only_minus_one 5 2).2.2.2 (by decide)⟩

/-- C10: `sets_by_muscle` always lands in {1, 0.5, 0}: 1 when the multiplier
equals 1, 0 when it equals 0.1, and 0.5 in every other case — including the
null multiplier an unmapped exercise gets from the left join, which receives
0.5 and `is_set_principal_for_muscle` 0; the latter is 1 exactly when
`sets_by_muscle` is 1. -/
theorem c10_sets_by_muscle_trichotomy :
    ∀ m : Option ℚ,
      (sets_by_muscle m = 1 ∨ sets_by_muscle m = 0.5 ∨ sets_by_muscle m = 0) ∧
      (m = some 1 → sets_by_muscle m = 1) ∧
      (m = some 0.1 → sets_by_muscle m = 0) ∧
      (m ≠ some 1 → m ≠ some 0.1 → sets_by_muscle m = 0.5) ∧
      sets_by_muscle none = 0.5 ∧
      is_set_principal_for_muscle (sets_by_muscle none) = 0 ∧
      (is_set_principal_for_muscle (sets_by_muscle m) = 1 ↔ sets_by_muscle m = 1) := by
  intro m
  by_cases h1 : m = some 1
  · subst h1
    decide
  · by_cases h2 : m = some 0.1
    · subst h2
      decide
    · have hs : sets_by_muscle m = 0.5 := by
        unfold sets_by_muscle
        rw [if_neg h1, if_neg h2]
      refine ⟨Or.inr (Or.inl hs), fun h => absurd h h1, fun h => absurd h h2,
        fun _ _ => hs, by decide, by decide, ?_⟩
      rw [hs]
      decide

/-- Witness for C10 at the three multiplier values. -/
theorem c10_witness :
    sets_by_muscle (some 1) = 1 ∧ sets_by_muscle (some 0.1) = 0 :=
  ⟨(c10_sets_by_muscle_trichotomy (some 1)).2.1 rfl,
   (c10_sets_by_muscle_trichotomy (some 0.1)).2.2.1 rfl⟩

/-- C8: `clean_rango` is invariant under swapping the two numbers of a
two-number range text, and produces the ascending-ordered
`"{min} - {max}"` string. -/
theorem c8_clean_rango_swap_invariant :
    ∀ (s t : String) (a b : ℚ), a ≠ b →
      extractNums (pyStrip s.data) = [a, b] →
      extractNums (pyStrip t.data) = [b, a] →
      clean_rango s = clean_rango t ∧
      clean_rango s = fmtG (min a b) ++ " - " ++ fmtG (max a b) := by
  intro s t a b hab hs ht
  have hcs : clean_rango s =
      if a ≤ b then fmtG a ++ " - " ++ fmtG b else fmtG b ++ " - " ++ fmtG a := by
    simp only [clean_rango, hs]
  have hct : clean_rango t =
      if b ≤ a then fmtG b ++ " - " ++ fmtG a else fmtG a ++ " - " ++ fmtG b := by
    simp only [clean_rango, ht]
  rcases le_or_lt a b with h | h
  · have hba : ¬ b ≤ a := fun hba => hab (le_antisymm h hba)
    rw [hcs, hct, if_pos h, if_neg hba]
    exact ⟨rfl, by rw [min_eq_left h, max_eq_right h]⟩
  · have hab' : ¬ a ≤ b := not_le.mpr h
    rw [hcs, hct, if_neg hab', if_pos h.le]
    exact ⟨rfl, by rw [min_eq_right h.le, max_eq_left h.le]⟩

/-- Witness for C8 on the concrete pair "8-12" / "12-8". -/
theorem c8_witness :
    clean_rango "8-12" = clean_rango "12-8" ∧
    clean_rango "8-12" = fmtG (min 8 12) ++ " - " ++ fmtG (max 8 12) :=
  c8_clean_rango_swap_invariant "8-12" "12-8" 8 12 (by norm_num) (by decide) (by decide)

/-- C2: contrary to the claim that RIR "F" passes validity and never blocks
promotion, `validate_current_routine` raises `ValueError` on a nonzero set
whose RIR is "F": the coercion `str(int(x)) if x != "F" or "f" else x` casts
every value because its condition is always truthy. The second conjunct
records what the claim expected downstream: F as reserve 0 would mark the
set effective. -/
theorem c2_rir_F_raises_valueerror :
    validate_current_routine [⟨"Pull-ups", "8-12", 5, 100, "F"⟩] = .error .valueError ∧
    effective_set 0 = 1 := by
  constructor
  · decide
  · decide

/-- C3: a batch whose reps=0∧weight=0 rows are 2 of 3 (> 50%) is promoted
with no confirmation required at all — the empty rows are silently dropped
by the `sum != 0` filter before the ratio is computed, so
`requires_empty_confirmation` is false, contradicting the claim that such a
batch requires explicit operator confirmation. -/
theorem c3_empty_sets_dropped_before_ratio :
    validate_current_routine
        [⟨"A", "", 0, 0, "2"⟩, ⟨"A", "", 0, 0, "2"⟩, ⟨"B", "8-12", 5, 100, "2"⟩]
      = .ok ⟨false, false, false, false, false, false⟩ ∧
    ([⟨"A", "", 0, 0, "2"⟩, ⟨"A", "", 0, 0, "2"⟩, (⟨"B", "8-12", 5, 100, "2"⟩ : RawRow)].filter
        (fun r => decide (r.reps = 0 ∧ r.peso = 0))).length = 2 := by
  constructor
  · decide
  · decide

/-- C9: on a batch in which every row's Reps and Peso sum to zero, the
validator removes every row before the empty-set ratio and then divides by
`len(df) = 0`, raising `ZeroDivisionError`. -/
theorem c9_all_empty_batch_zero_division :
    ∀ rows : List RawRow, (∀ r ∈ rows, r.reps + r.peso = 0) →
      validate_current_routine rows = .error .zeroDivisionError := by
  intro rows h
  have hf : rows.filter (fun r => !decide (r.reps + r.peso = 0)) = [] := by
    rw [List.filter_eq_nil_iff]
    intro a ha
    simp [h a ha]
  simp [validate_current_routine, hf, mapExcept]

/-- Witness for C9 on a one-row all-empty batch. -/
theorem c9_witness :
    validate_current_routine [⟨"x", "", 0, 0, "F"⟩] = .error .zeroDivisionError :=
  c9_all_empty_batch_zero_division [⟨"x", "", 0, 0, "F"⟩] (by decide)

/-- C4: `add_ismaxrm_column` assigns `is_maxrm = 0` to a set whose non-null
`1rm` equals the maximum recorded for its exercise, where the claim (and the
etl variant of the column, shown in the last conjunct) says it should be
1. -/
theorem c4_is_maxrm_stub_returns_zero :
    add_ismaxrm_column [⟨⟨2025, 1, 6⟩, "Pull-ups", 5, 80, 2, 400, 100, some 120⟩]
      = [(⟨⟨2025, 1, 6⟩, "Pull-ups", 5, 80, 2, 400, 100, some 120⟩, 0)] ∧
    max_rm_exercise [⟨⟨2025, 1, 6⟩, "Pull-ups", 5, 80, 2, 400, 100, some 120⟩] "Pull-ups"
      = some 120 ∧
    etl_is_maxrm [⟨⟨2025, 1, 6⟩, "Pull-ups", 5, 80, 2, 400, 100, some 120⟩]
      ⟨⟨2025, 1, 6⟩, "Pull-ups", 5, 80, 2, 400, 100, some 120⟩ = 1 := by
  refine ⟨rfl, ?_, ?_⟩
  · decide
  · decide

/-- C5 counterexample: an exercise with no entry in the muscle-role mapping
does not yield zero output rows — the left merge keeps the set as exactly
one row with null role columns. -/
theorem c5_counterexample :
    ([⟨"Pecs", "principal", "bench press", some 1⟩] : List MuscleRole).filter
        (fun m => decide (pyCapitalize m.english_name = "Curl")) = [] ∧
    merge_muscleroles_and_inputdf [⟨⟨2025, 1, 6⟩, "Curl", 10, 50, 2, 500, 50, none⟩]
        [⟨"Pecs", "principal", "bench press", some 1⟩]
      = [(⟨⟨2025, 1, 6⟩, "Curl", 10, 50, 2, 500, 50, none⟩, none)] ∧
    [(⟨⟨2025, 1, 6⟩, "Curl", 10, 50, 2, 500, 50, none⟩, (none : Option MuscleRole))]
      ≠ ([] : List (SetRow × Option MuscleRole)) := by
  refine ⟨by decide, by decide, by decide⟩

/-- C5 (amended): a set whose exercise has no mapping entry is kept as
exactly one row with null muscle columns (downstream `sets_by_muscle` 0.5,
`is_set_principal_for_muscle` 0) rather than fanning out to zero rows; the
batch itself is unaffected. -/
theorem c5_unmapped_exercise_single_null_row :
    ∀ (rows : List SetRow) (roles : List MuscleRole) (r : SetRow),
      r ∈ rows →
      (∀ m ∈ roles, pyCapitalize m.english_name ≠ r.exercise) →
      (r, (none : Option MuscleRole)) ∈ merge_muscleroles_and_inputdf rows roles ∧
      merge_muscleroles_and_inputdf [r] roles = [(r, none)] ∧
      sets_by_muscle none = 0.5 ∧
      is_set_principal_for_muscle (sets_by_muscle none) = 0 := by
  intro rows roles r hr hnone
  have hfil : roles.filter (fun m => decide (pyCapitalize m.english_name = r.exercise)) = [] := by
    rw [List.filter_eq_nil_iff]
    intro m hm
    simp [hnone m hm]
  refine ⟨?_, ?_, by decide, by decide⟩
  · rw [merge_muscleroles_and_inputdf, List.mem_flatMap]
    refine ⟨r, hr, ?_⟩
    rw [hfil]
    exact List.mem_singleton.mpr rfl
  · rw [merge_muscleroles_and_inputdf]
    simp only [List.flatMap_cons, List.flatMap_nil, hfil, List.append_nil]

/-- Witness for C5's amended statement on a concrete unmapped exercise. -/
theorem c5_witness :
    merge_muscleroles_and_inputdf [⟨⟨2025, 1, 7⟩, "Leg curl", 10, 50, 2, 500, 50, none⟩]
        [⟨"Pecs", "principal", "bench press", some 1⟩]
      = [(⟨⟨2025, 1, 7⟩, "Leg curl", 10, 50, 2, 500, 50, none⟩, none)] :=
  (c5_unmapped_exercise_single_null_row
    [⟨⟨2025, 1, 7⟩, "Leg curl", 10, 50, 2, 500, 50, none⟩]
    [⟨"Pecs", "principal", "bench press", some 1⟩]
    ⟨⟨2025, 1, 7⟩, "Leg curl", 10, 50, 2, 500, 50, none⟩
    (List.mem_singleton.mpr rfl) (by decide)).2.1

/-- C6: `add_training_days_on_week_col` assigns the constant 0, although the
two batch rows fall on distinct dates of the same ISO week, so the claimed
count over the historical dates is 2 (as the etl batch-local variant also
computes); the column never equals the distinct-date count. -/
theorem c6_training_days_stub_returns_zero :
    add_training_days_on_week_col
        [⟨⟨2025, 1, 6⟩, "Pull-ups", 5, 80, 2, 400, 100, some 120⟩,
         ⟨⟨2025, 1, 7⟩, "Pull-ups", 5, 80, 2, 400, 100, some 120⟩]
      = [(⟨⟨2025, 1, 6⟩, "Pull-ups", 5, 80, 2, 400, 100, some 120⟩, 0),
         (⟨⟨2025, 1, 7⟩, "Pull-ups", 5, 80, 2, 400, 100, some 120⟩, 0)] ∧
    isoYearWeek ⟨2025, 1, 6⟩ = isoYearWeek ⟨2025, 1, 7⟩ ∧
    spec_training_days [⟨2025, 1, 6⟩, ⟨2025, 1, 7⟩] ⟨2025, 1, 6⟩ = 2 ∧
    etl_training_days_on_week
        [⟨⟨2025, 1, 6⟩, "Pull-ups", 5, 80, 2, 400, 100, some 120⟩,
         ⟨⟨2025, 1, 7⟩, "Pull-ups", 5, 80, 2, 400, 100, some 120⟩]
        ⟨⟨2025, 1, 6⟩, "Pull-ups", 5, 80, 2, 400, 100, some 120⟩ = 2 := by
  refine ⟨rfl, by decide, by decide, ?_⟩
  decide

end Gymify
